import Mathlib

/-!
# sample.js: a single-request chat-completion client

A shallow embedding of `src/sample.js`.  The script reads one credential from
the environment, one image from the working directory, sends one
chat-completion request through the `@azure-rest/ai-inference` client and
prints the first candidate.  Everything the script consumes from outside
(environment, filesystem, path helpers, the client library and the provider)
is gathered in a `World`; `main` is a pure function of the world that returns
the console calls, the requests handed to `post` and how the function
completed.  `run` adds the module's top-level `main().catch(...)` handler and
the exit code of the process.
-/

namespace Sample

/-! ## Base64 (the runtime's `Buffer.toString("base64")`) -/

/-- One octet of a `Buffer`. -/
abbrev Byte := Fin 256

/-- The character of a 6-bit value in the standard base64 alphabet
(`A-Z`, `a-z`, `0-9`, `+`, `/`). -/
def b64Char (n : Nat) : Char :=
  if n < 26 then Char.ofNat (65 + n)
  else if n < 52 then Char.ofNat (97 + (n - 26))
  else if n < 62 then Char.ofNat (48 + (n - 52))
  else if n = 62 then '+'
  else '/'

/-- The standard base64 text of a byte sequence, with `=` padding, as
`imageBuffer.toString("base64")` produces it (line 37). -/
def base64Chars : List Byte → List Char
  | [] => []
  | [a] => [b64Char (a.val / 4), b64Char (a.val % 4 * 16), '=', '=']
  | [a, b] =>
    [b64Char (a.val / 4), b64Char (a.val % 4 * 16 + b.val / 16), b64Char (b.val % 16 * 4), '=']
  | a :: b :: c :: rest =>
    b64Char (a.val / 4) :: b64Char (a.val % 4 * 16 + b.val / 16)
      :: b64Char (b.val % 16 * 4 + c.val / 64) :: b64Char (c.val % 64) :: base64Chars rest

/-- The value of `imageBuffer.toString("base64")`. -/
def toBase64 (bytes : List Byte) : String := String.mk (base64Chars bytes)

/-- The prefix of the data URI built on line 74. -/
def dataUriPrefix : String := "data:image/jpeg;base64,"

/-- The template literal of line 74: the JPEG data URI of the image bytes. -/
def dataUri (bytes : List Byte) : String := dataUriPrefix ++ toBase64 bytes

/-- Modelled from the spec: the value of a base64 character; the script never
decodes, the decoder exists only in the round-trip property of the spec. -/
def b64Val (c : Char) : Option Nat :=
  let n := c.toNat
  if 65 ≤ n ∧ n ≤ 90 then some (n - 65)
  else if 97 ≤ n ∧ n ≤ 122 then some (n - 97 + 26)
  else if 48 ≤ n ∧ n ≤ 57 then some (n - 48 + 52)
  else if n = 43 then some 62
  else if n = 47 then some 63
  else none

/-- The octet with value `n` modulo 256. -/
def byteOf (n : Nat) : Byte := ⟨n % 256, Nat.mod_lt n (by decide)⟩

/-- Modelled from the spec: standard base64 decoding, four characters at a
time, `=` padding accepted only in the last group.  The script has no decoder;
this is the "decoding it back" of the round-trip property. -/
def base64Bytes : List Char → Option (List Byte)
  | [] => some []
  | c0 :: c1 :: c2 :: c3 :: rest =>
    match b64Val c0, b64Val c1 with
    | some v0, some v1 =>
      if c3 = '=' then
        if rest ≠ [] then none
        else if c2 = '=' then some [byteOf (v0 * 4 + v1 / 16)]
        else
          match b64Val c2 with
          | some v2 => some [byteOf (v0 * 4 + v1 / 16), byteOf (v1 % 16 * 16 + v2 / 4)]
          | none => none
      else
        match b64Val c2, b64Val c3, base64Bytes rest with
        | some v2, some v3, some tail =>
          some (byteOf (v0 * 4 + v1 / 16) :: byteOf (v1 % 16 * 16 + v2 / 4)
            :: byteOf (v2 % 4 * 64 + v3) :: tail)
        | _, _, _ => none
    | _, _ => none
  | _ => none

/-- Modelled from the spec: removal of a known prefix from a text, `none` when
the text does not start with it. -/
def stripPrefix : List Char → List Char → Option (List Char)
  | [], s => some s
  | _ :: _, [] => none
  | p :: ps, c :: cs => if p = c then stripPrefix ps cs else none

/-- Modelled from the spec: decoding of a data URI back to bytes: strip the
`data:image/jpeg;base64,` prefix, then base64-decode the remainder. -/
def decodeDataUri (uri : String) : Option (List Byte) :=
  match stripPrefix dataUriPrefix.data uri.data with
  | some rest => base64Bytes rest
  | none => none

/-! ## JavaScript values -/

/-- The bound `2^53`: every integer of smaller magnitude is a number of the
engine, and the engine prints it digit for digit. -/
abbrev safeBound : Nat := 9007199254740992

/-- What `JSON.parse` yields for a response body.  Numbers are the integers of
magnitude below `2^53`; the script only tests a number for being zero (the
`||` of line 98) and prints it inside `JSON.stringify`.  The fields of an
object are its own properties in enumeration order, each name once. -/
inductive Json where
  | null
  | bool (b : Bool)
  | num (n : Int) (safe : n.natAbs < safeBound)
  | str (s : String)
  | arr (items : List Json)
  | obj (fields : List (String × Json))

/-- The JavaScript values the script handles: `undefined`, parsed JSON data,
and `Error` instances (those the engine and the script create, and those the
client library rejects with). -/
inductive JsVal where
  | undefined
  | json (j : Json)
  | error (name message : String)

/-- The property names the script reads: `.choices`, `[0]`, `.message`,
`.content` (line 102) and `.error` (line 98). -/
inductive PropName where
  | choices
  | zero
  | message
  | content
  | error
deriving DecidableEq

/-- The property name as text. -/
def PropName.text : PropName → String
  | .choices => "choices"
  | .zero => "0"
  | .message => "message"
  | .content => "content"
  | .error => "error"

/-- The `TypeError` the engine throws when a property of `undefined` or `null`
is read. -/
def cannotRead (base : String) (k : PropName) : JsVal :=
  .error "TypeError" ("Cannot read properties of " ++ base ++ " (reading '" ++ k.text ++ "')")

/-- The own property `k` of an object, `undefined` when it has none. -/
def lookupField (k : String) : List (String × Json) → JsVal
  | [] => .undefined
  | (name, v) :: rest => if name = k then .json v else lookupField k rest

/-- Reading `v.k` or `v[0]`: a `TypeError` on `undefined` and `null`, the own
property on an object, the first element of an array or string for `[0]`, the
message of an `Error`, and `undefined` in every other case (none of the five
names is inherited from a prototype).  The first element of a string is its
first character (its first code unit in the engine; the script never looks
inside it). -/
def getProp (v : JsVal) (k : PropName) : Except JsVal JsVal :=
  match v with
  | .undefined => .error (cannotRead "undefined" k)
  | .json .null => .error (cannotRead "null" k)
  | .json (.obj fields) => .ok (lookupField k.text fields)
  | .json (.arr items) =>
    match k, items with
    | .zero, x :: _ => .ok (.json x)
    | _, _ => .ok .undefined
  | .json (.str s) =>
    match k, s.data with
    | .zero, c :: _ => .ok (.json (.str (String.singleton c)))
    | _, _ => .ok .undefined
  | .json (.bool _) => .ok .undefined
  | .json (.num _ _) => .ok .undefined
  | .error _ message =>
    match k with
    | .message => .ok (.json (.str message))
    | _ => .ok .undefined

/-- Truthiness, as `||` and `&&` test it. -/
def truthy : JsVal → Bool
  | .undefined => false
  | .json .null => false
  | .json (.bool b) => b
  | .json (.num n _) => n != 0
  | .json (.str s) => s != ""
  | .json (.arr _) => true
  | .json (.obj _) => true
  | .error _ _ => true

/-- The test `err && typeof err === 'object'` of lines 48, 88 and 109. -/
def isObject : JsVal → Bool
  | .json (.arr _) => true
  | .json (.obj _) => true
  | .error _ _ => true
  | _ => false

/-- One hexadecimal digit, lower case. -/
def hexDigit (n : Nat) : Char :=
  if n < 10 then Char.ofNat (48 + n) else Char.ofNat (87 + n)

/-- The escape of one character inside a JSON string. -/
def jsonEscape (c : Char) : List Char :=
  let n := c.toNat
  if n = 34 then [Char.ofNat 92, Char.ofNat 34]
  else if n = 92 then [Char.ofNat 92, Char.ofNat 92]
  else if n = 8 then [Char.ofNat 92, 'b']
  else if n = 12 then [Char.ofNat 92, 'f']
  else if n = 10 then [Char.ofNat 92, 'n']
  else if n = 13 then [Char.ofNat 92, 'r']
  else if n = 9 then [Char.ofNat 92, 't']
  else if n < 32 then [Char.ofNat 92, 'u', '0', '0', hexDigit (n / 16), hexDigit (n % 16)]
  else [c]

/-- A string as JSON text, quoted. -/
def jsonQuote (s : String) : String :=
  String.mk (Char.ofNat 34 :: (s.data.flatMap jsonEscape ++ [Char.ofNat 34]))

mutual
/-- The text `JSON.stringify(j)` returns for parsed JSON data. -/
def jsonStringify : Json → String
  | .null => "null"
  | .bool b => if b then "true" else "false"
  | .num n _ => toString n
  | .str s => jsonQuote s
  | .arr items => "[" ++ ",".intercalate (jsonItems items) ++ "]"
  | .obj fields => "\x7b" ++ ",".intercalate (jsonFields fields) ++ "\x7d"
/-- The elements of an array as JSON texts. -/
def jsonItems : List Json → List String
  | [] => []
  | x :: xs => jsonStringify x :: jsonItems xs
/-- The members of an object as JSON texts. -/
def jsonFields : List (String × Json) → List String
  | [] => []
  | (k, v) :: rest => (jsonQuote k ++ ":" ++ jsonStringify v) :: jsonFields rest
end

/-- The text of `JSON.stringify(response.body)` inside the template literal of
line 98: the JSON text of the parsed body, `undefined` for an empty body. -/
def jsonTemplate : Option Json → String
  | none => "undefined"
  | some j => jsonStringify j

/-! ## The request -/

/-- One segment of a multi-part user message (lines 66-75). -/
inductive Segment where
  | text (text : String)
  | image_url (url : String)
deriving DecidableEq

/-- The content of a message: plain text (line 61) or a list of segments
(lines 64-76). -/
inductive Content where
  | plain (text : String)
  | parts (segments : List Segment)
deriving DecidableEq

/-- One entry of `messages`. -/
structure Message where
  role : String
  content : Content
deriving DecidableEq

/-- The `body` passed to `post` (lines 58-84).  The literals `0.7` and `0.95`
are kept as the decimal fractions written in the source (the nearest doubles
lie in the same interval `[0, 1]`). -/
structure ChatBody where
  messages : List Message
  temperature : ℚ
  top_p : ℚ
  max_tokens : Int
  model : String

/-- Line 11. -/
def endpoint : String := "https://models.inference.ai.azure.com"

/-- Line 12. -/
def modelName : String := "Llama-4-Maverick-17B-128E-Instruct-FP8"

/-- Line 26. -/
def imageFileName : String := "contoso_layout_sketch.jpg"

/-- The route of line 57. -/
def chatRoute : String := "/chat/completions"

/-- The system prompt of line 61. -/
def systemPrompt : String :=
  "You are a helpful frontend developer who can write HTML and CSS code from user descriptions and images."

/-- The user instruction of line 68. -/
def userPrompt : String :=
  "Write HTML and CSS code for a web page based on the following hand-drawn sketch."

/-- The object literal of lines 58-84, for the base64 text of the image. -/
def requestBody (base64Image : String) : ChatBody :=
  { messages :=
      [ { role := "system", content := .plain systemPrompt },
        { role := "user",
          content := .parts
            [ .text userPrompt,
              .image_url (dataUriPrefix ++ base64Image) ] } ],
    temperature := 0.7,
    top_p := 0.95,
    max_tokens := 500,
    model := modelName }

/-! ## The world outside the script -/

/-- What the script sees of a response: its HTTP status and its parsed body
(`none` when the body is empty, which leaves `response.body` undefined). -/
structure Response where
  status : Nat
  payload : Option Json

/-- The value of `response.body`. -/
def Response.body (response : Response) : JsVal :=
  match response.payload with
  | none => .undefined
  | some j => .json j

/-- The library's `isUnexpected(response)` (the library is not part of the
script): for `POST /chat/completions` its table of expected statuses holds
`200` alone, so every other status, 201 to 299 included, is unexpected. -/
def Response.unexpected (response : Response) : Bool := response.status != 200

/-- The client returned by `ModelClient(endpoint, credential)`:
`client.path(route).post(\x7bbody\x7d)` either rejects with a thrown value or
resolves to a response. -/
structure Client where
  post : String → ChatBody → Except JsVal Response

/-- Everything the script consumes from outside.
* `token`: `process.env["GITHUB_TOKEN"]`, `none` when the variable is unset;
* `cwd`: `process.cwd()`, taken to succeed;
* `filename`: the binding of the free identifier `__filename`: the CommonJS
  wrapper provides one, an ES module (which the `import`/`export` declarations
  of the file make it under Node) has none and reading it throws a
  `ReferenceError`;
* `join`, `basename`: `path.join`, `path.basename`;
* `existsSync`, `readFileSync`: the synchronous `fs` calls;
* `modelClient`: `ModelClient(endpoint, new AzureKeyCredential(token))`. -/
structure World where
  token : Option String
  cwd : String
  filename : Option String
  join : String → String → String
  basename : String → String
  existsSync : String → Bool
  readFileSync : String → Except JsVal (List Byte)
  modelClient : String → String → Except JsVal Client

/-! ## Console output -/

/-- One argument of a `console.log` / `console.error` call.  `val v` is the
value itself (a string is printed verbatim, any other value as the console
formats it); `json2 v` is the text of `JSON.stringify(v, null, 2)`; `jsonOwn2 v`
the text of `JSON.stringify(v, Object.getOwnPropertyNames(v), 2)`. -/
inductive Arg where
  | val (v : JsVal)
  | json2 (v : JsVal)
  | jsonOwn2 (v : JsVal)

/-- A string literal as console argument. -/
def Arg.text (s : String) : Arg := .val (.json (.str s))

/-- What a run of `main` did: the `console.error` calls, the `console.log`
calls and the `post` calls, each in order, with the arguments of each call. -/
structure Trace where
  stderr : List (List Arg)
  stdout : List (List Arg)
  posts : List (String × ChatBody)

/-- How the body of `main` ended: it fell off its end (the promise resolves),
`process.exit(code)` ended the process, or a value was thrown (the promise
rejects with it). -/
inductive Completion where
  | returned
  | exited (code : Nat)
  | threw (err : JsVal)

/-! ## `main` (lines 14-103) -/

/-- The three lines of the token check (lines 18-20). -/
def tokenMessages : List (List Arg) :=
  [ [.text "CRITICAL ERROR: GITHUB_TOKEN environment variable is not set."],
    [.text "This token is used as the API Key for the Azure AI Inference endpoint."],
    [.text "Please set it using: $env:GITHUB_TOKEN=\"YOUR_API_KEY\" (PowerShell) in your terminal."] ]

/-- The path the script looks for: `path.join(process.cwd(), imageFileName)`
(line 27). -/
def imagePath (w : World) : String := w.join w.cwd imageFileName

/-- The template literal of line 31. -/
def notFoundMessage (path : String) : String :=
  "Error: Image file not found at " ++ path

/-- The template literal of line 32, given the value of `__filename`. -/
def ensureMessage (w : World) (file : String) : String :=
  "Please ensure '" ++ imageFileName ++ "' is in the same directory as '" ++ w.basename file ++ "'."

/-- The `ReferenceError` thrown when `__filename` is read without a binding. -/
def filenameUnbound : JsVal := .error "ReferenceError" "__filename is not defined"

/-- The first message of the `catch` of lines 86-92. -/
def postStageMessage : String :=
  "Error during client.path(...).post() call (network or request issue):"

/-- The message of line 96. -/
def providerMessage : String :=
  "API returned an unexpected response (not a successful 2xx status)."

/-- The `catch` of lines 46-52, up to the rethrow. -/
def clientCatch (clientError : JsVal) : List (List Arg) :=
  [.text "Error creating ModelClient instance:", .val clientError] ::
    (if isObject clientError then [[.text "Client error details:", .json2 clientError]] else [])

/-- The `catch` of lines 86-92, up to the rethrow. -/
def postCatch (postError : JsVal) : List (List Arg) :=
  [.text postStageMessage, .val postError] ::
    (if isObject postError then [[.text "Post call error details:", .json2 postError]] else [])

/-- The expression `response.body.choices[0].message.content` of line 102. -/
def firstContent (body : JsVal) : Except JsVal JsVal :=
  match getProp body .choices with
  | .error e => .error e
  | .ok choices =>
    match getProp choices .zero with
    | .error e => .error e
    | .ok first =>
      match getProp first .message with
      | .error e => .error e
      | .ok message => getProp message .content

/-- The operand of the `throw` of line 98:
`response.body.error || new Error(...)`; reading `.error` may itself throw. -/
def providerError (response : Response) : JsVal :=
  match getProp response.body .error with
  | .error e => e
  | .ok err =>
    if truthy err then err
    else .error "Error"
      ("API error without specific error message: " ++ jsonTemplate response.payload)

/-- Step 4 (lines 94-102), after `post` resolved to `response`. -/
def handleResponse (posts : List (String × ChatBody)) (response : Response) : Trace × Completion :=
  if response.unexpected then
    ({ stderr := [[.text providerMessage], [.text "Full response body:", .val response.body]],
       stdout := [], posts := posts },
     .threw (providerError response))
  else
    match firstContent response.body with
    | .error e => ({ stderr := [], stdout := [], posts := posts }, .threw e)
    | .ok content => ({ stderr := [], stdout := [[.val content]], posts := posts }, .returned)

/-- Steps 1-3 (lines 25-92), for a token that passed the check of line 17. -/
def withToken (w : World) (token : String) : Trace × Completion :=
  if !w.existsSync (imagePath w) then
    match w.filename with
    | none =>
      ({ stderr := [[.text (notFoundMessage (imagePath w))]], stdout := [], posts := [] },
       .threw filenameUnbound)
    | some file =>
      ({ stderr := [[.text (notFoundMessage (imagePath w))], [.text (ensureMessage w file)]],
         stdout := [], posts := [] },
       .exited 1)
  else
    match w.readFileSync (imagePath w) with
    | .error e => ({ stderr := [], stdout := [], posts := [] }, .threw e)
    | .ok imageBuffer =>
      let base64Image := toBase64 imageBuffer
      match w.modelClient endpoint token with
      | .error clientError =>
        ({ stderr := clientCatch clientError, stdout := [], posts := [] }, .threw clientError)
      | .ok client =>
        let body := requestBody base64Image
        match client.post chatRoute body with
        | .error postError =>
          ({ stderr := postCatch postError, stdout := [], posts := [(chatRoute, body)] },
           .threw postError)
        | .ok response => handleResponse [(chatRoute, body)] response

/-- The function `main` of lines 14-103. -/
def main (w : World) : Trace × Completion :=
  match w.token with
  | none => ({ stderr := tokenMessages, stdout := [], posts := [] }, .exited 1)
  | some token =>
    if token = "" then ({ stderr := tokenMessages, stdout := [], posts := [] }, .exited 1)
    else withToken w token

/-! ## The module's top level (lines 105-115) -/

/-- The handler passed to `.catch` (lines 106-115). -/
def finalCatch (err : JsVal) : List (List Arg) :=
  [ [.text "\n--- Final Catch Block Error ---"],
    [.text "The sample encountered an error:", .val err],
    (if isObject err then [.text "Error details (JSON):", .jsonOwn2 err]
     else [.text "Error was not an object or was undefined:", .val err]),
    [.text "--- End Final Catch Block Error ---"] ]

/-- What a run of the script leaves behind.  `caught` is the value the
top-level handler received, if it ran.  `exitCode` is the code of
`process.exit` when it was called; otherwise the process ends on its own with
code 0: the promise of `main` either resolved or its rejection was handled by
the `.catch` handler, which sets no exit code. -/
structure Outcome where
  stderr : List (List Arg)
  stdout : List (List Arg)
  posts : List (String × ChatBody)
  caught : Option JsVal
  exitCode : Nat

/-- One run of the script: `main().catch(handler)`. -/
def run (w : World) : Outcome :=
  match main w with
  | (t, .returned) =>
    { stderr := t.stderr, stdout := t.stdout, posts := t.posts, caught := none, exitCode := 0 }
  | (t, .exited code) =>
    { stderr := t.stderr, stdout := t.stdout, posts := t.posts, caught := none, exitCode := code }
  | (t, .threw err) =>
    { stderr := t.stderr ++ finalCatch err, stdout := t.stdout, posts := t.posts,
      caught := some err, exitCode := 0 }

/-! ## Stages of a run -/

/-- The credential is unset or empty: the test `!token` of line 17 succeeds. -/
def MissingCredential (w : World) : Prop := w.token = none ∨ w.token = some ""

/-- The run gets as far as the `post` call of line 57: the credential is
non-empty, the image exists and is read as `bytes`, and the client was
constructed. -/
def ReachesPost (w : World) (bytes : List Byte) (client : Client) : Prop :=
  ∃ token, w.token = some token ∧ token ≠ "" ∧ w.existsSync (imagePath w) = true ∧
    w.readFileSync (imagePath w) = .ok bytes ∧ w.modelClient endpoint token = .ok client

/-- The run reaches the `post` call, and the call settles with `result`: an
error when the promise rejects, a response when it resolves. -/
def PostSettles (w : World) (result : Except JsVal Response) : Prop :=
  ∃ bytes client, ReachesPost w bytes client ∧
    client.post chatRoute (requestBody (toBase64 bytes)) = result

/-- Modelled from the spec: `url` is a base64 data URI of `bytes` with media
type `mime`: the text `data:`, the media type, the text `;base64,`, and then a
base64 text that decodes to `bytes`.  Stated with the decoder and with the
literal parts of a data URI, not with what the script computes. -/
def IsBase64DataUri (mime : String) (bytes : List Byte) (url : String) : Prop :=
  ∃ payload : List Char,
    url.data = "data:".data ++ mime.data ++ ";base64,".data ++ payload ∧
    base64Bytes payload = some bytes

/-- The invariant of a chat request, for the bytes of the image: a system
message with plain text, then a user message with a text segment and an image
segment whose url is a base64 data URI of the bytes with an image media type
`mime`; both sampling parameters within `[0, 1]`, a positive token bound, a
non-empty model name. -/
def ChatRequestInvariant (mime : String) (bytes : List Byte) (body : ChatBody) : Prop :=
  (∃ sys instruction url, body.messages =
      [ { role := "system", content := .plain sys },
        { role := "user", content := .parts [.text instruction, .image_url url] } ] ∧
    IsBase64DataUri mime bytes url) ∧
  0 ≤ body.temperature ∧ body.temperature ≤ 1 ∧
  0 ≤ body.top_p ∧ body.top_p ≤ 1 ∧
  0 < body.max_tokens ∧
  body.model ≠ ""

/-- A transport-level failure as the client library reports it (the library
is not part of the script): when the request cannot be sent or answered
(connection refused, DNS, TLS), `post` rejects with a `RestError` instance. -/
def IsTransportError (e : JsVal) : Prop := ∃ message, e = .error "RestError" message

/-- The status is a success status in the sense of HTTP: 200 to 299. -/
def IsSuccessStatus (status : Nat) : Prop := 200 ≤ status ∧ status < 300

/-- The value `v` is surfaced on stderr: some `console.error` call has it among
its arguments, as a value or as its JSON text. -/
def Surfaces (v : JsVal) (stderr : List (List Arg)) : Prop :=
  ∃ line ∈ stderr, Arg.val v ∈ line ∨ Arg.json2 v ∈ line ∨ Arg.jsonOwn2 v ∈ line

/-! ## Concrete worlds -/

/-- A world with the given credential, `__filename` binding, filesystem answers
and client, under `/work`. -/
def worldOf (token : Option String) (filename : Option String) (present : Bool)
    (read : Except JsVal (List Byte)) (client : Except JsVal Client) : World :=
  { token := token,
    cwd := "/work",
    filename := filename,
    join := fun dir name => dir ++ "/" ++ name,
    basename := fun _ => "sample.js",
    existsSync := fun _ => present,
    readFileSync := fun _ => read,
    modelClient := fun _ _ => client }

/-- A client whose `post` always settles the same way. -/
def clientOf (result : Except JsVal Response) : Client := { post := fun _ _ => result }

/-- The three bytes `ff d8 ff` that open a JPEG file. -/
def jpegHead : List Byte := [255, 216, 255]

/-- A world in which the run reaches `post`, which settles with `result`; the
script runs as an ES module. -/
def worldPosting (result : Except JsVal Response) : World :=
  worldOf (some "ghp_example") none true (.ok jpegHead) (.ok (clientOf result))

/-- Scenario A: a 2xx answer with one candidate. -/
def successResponse : Response :=
  { status := 200,
    payload := some
      (.obj [("choices", .arr [.obj [("message", .obj [("content", .str "<html>...</html>")])]])]) }

/-- The answer of scenario A with status 201 (Created) in place of 200. -/
def createdResponse : Response := { successResponse with status := 201 }

/-- Scenario B: the credential is unset. -/
def worldNoToken : World :=
  worldOf none none true (.ok jpegHead) (.ok (clientOf (.ok successResponse)))

/-- Scenario C under Node, where the file is an ES module: credential set,
image absent, `__filename` unbound. -/
def worldNoFileModule : World :=
  worldOf (some "ghp_example") none false (.ok []) (.ok (clientOf (.ok successResponse)))

/-- Scenario C under a CommonJS wrapper: credential set, image absent,
`__filename` bound. -/
def worldNoFileCommonJs : World :=
  worldOf (some "ghp_example") (some "/work/sample.js") false (.ok [])
    (.ok (clientOf (.ok successResponse)))

/-- Scenario D: HTTP 429 with an error body whose message is `rate limited`. -/
def rateLimitedResponse : Response :=
  { status := 429, payload := some (.obj [("error", .obj [("message", .str "rate limited")])]) }

/-- A non-2xx answer with an empty body: the client library leaves
`response.body` undefined. -/
def emptyErrorResponse : Response := { status := 502, payload := none }

/-- A 2xx answer whose `choices` list is empty. -/
def noChoicesResponse : Response :=
  { status := 200, payload := some (.obj [("choices", .arr [])]) }

/-- A transport failure: `post` rejects with a connection error. -/
def connectionRefused : JsVal := .error "RestError" "connect ECONNREFUSED 127.0.0.1:443"

/-- A world in which client construction throws. -/
def worldClientThrows : World :=
  worldOf (some "ghp_example") none true (.ok jpegHead) (.error (.error "Error" "invalid endpoint"))

/-! ## Base64 round trip -/

theorem b64Val_b64Char (n : Nat) (h : n < 64) : b64Val (b64Char n) = some n := by
  interval_cases n <;> rfl

theorem b64Char_ne_pad (n : Nat) (h : n < 64) : b64Char n ≠ '=' := by
  interval_cases n <;> decide

theorem stripPrefix_append (p s : List Char) : stripPrefix p (p ++ s) = some s := by
  induction p with
  | nil => cases s <;> rfl
  | cons c cs ih => simp [stripPrefix, ih]

theorem byteOf_eq (n : Nat) (a : Byte) (h : n = a.val) : byteOf n = a := by
  apply Fin.ext
  have ha := a.isLt
  simp only [byteOf]
  omega

theorem base64Bytes_base64Chars (bytes : List Byte) :
    base64Bytes (base64Chars bytes) = some bytes := by
  induction bytes using base64Chars.induct with
  | case1 => rfl
  | case2 a =>
    have ha := a.isLt
    simp [base64Chars, base64Bytes, b64Val_b64Char, show a.val / 4 < 64 by omega,
      show a.val % 4 * 16 < 64 by omega]
    exact byteOf_eq _ a (by omega)
  | case3 a b =>
    have ha := a.isLt
    have hb := b.isLt
    have hne := b64Char_ne_pad (b.val % 16 * 4) (by omega)
    simp [base64Chars, base64Bytes, b64Val_b64Char, show a.val / 4 < 64 by omega,
      show a.val % 4 * 16 + b.val / 16 < 64 by omega, show b.val % 16 * 4 < 64 by omega, hne]
    exact ⟨byteOf_eq _ a (by omega), byteOf_eq _ b (by omega)⟩
  | case4 a b c rest ih =>
    have ha := a.isLt
    have hb := b.isLt
    have hc := c.isLt
    have hne := b64Char_ne_pad (c.val % 64) (by omega)
    simp [base64Chars, base64Bytes, b64Val_b64Char, show a.val / 4 < 64 by omega,
      show a.val % 4 * 16 + b.val / 16 < 64 by omega,
      show b.val % 16 * 4 + c.val / 64 < 64 by omega, show c.val % 64 < 64 by omega, hne, ih]
    exact ⟨byteOf_eq _ a (by omega), byteOf_eq _ b (by omega), byteOf_eq _ c (by omega)⟩

/-- C5: for every byte sequence, the empty one included, the data URI built
as in `main` (the prefix `data:image/jpeg;base64,` followed by the standard
base64 text of the bytes) decodes back to exactly those bytes: stripping the
prefix and base64-decoding the remainder succeeds and returns them. -/
theorem data_uri_round_trip (bytes : List Byte) : decodeDataUri (dataUri bytes) = some bytes := by
  have hdata : (dataUri bytes).data = dataUriPrefix.data ++ base64Chars bytes := by
    simp [dataUri, toBase64]
  have hstrip : stripPrefix dataUriPrefix.data (dataUri bytes).data = some (base64Chars bytes) := by
    rw [hdata]
    exact stripPrefix_append _ _
  unfold decodeDataUri
  rw [hstrip]
  exact base64Bytes_base64Chars bytes

/-! ## The stages of `main` -/

theorem main_missingCredential (w : World) (h : MissingCredential w) :
    main w = ({ stderr := tokenMessages, stdout := [], posts := [] }, .exited 1) := by
  rcases h with h | h <;> simp [main, h]

theorem main_reachesPost (w : World) (bytes : List Byte) (client : Client)
    (h : ReachesPost w bytes client) :
    main w =
      match client.post chatRoute (requestBody (toBase64 bytes)) with
      | .error postError =>
        ({ stderr := postCatch postError, stdout := [],
           posts := [(chatRoute, requestBody (toBase64 bytes))] }, .threw postError)
      | .ok response => handleResponse [(chatRoute, requestBody (toBase64 bytes))] response := by
  obtain ⟨token, htok, hne, hex, hread, hclient⟩ := h
  simp only [main, htok, hne, withToken, hex, hread, hclient]
  simp

theorem main_postRejects (w : World) (e : JsVal) (h : PostSettles w (.error e)) :
    ∃ body, main w = ({ stderr := postCatch e, stdout := [], posts := [(chatRoute, body)] }, .threw e) := by
  obtain ⟨bytes, client, hr, hp⟩ := h
  exact ⟨_, by rw [main_reachesPost w bytes client hr, hp]⟩

theorem main_postResolves (w : World) (r : Response) (h : PostSettles w (.ok r)) :
    ∃ body, main w = handleResponse [(chatRoute, body)] r := by
  obtain ⟨bytes, client, hr, hp⟩ := h
  exact ⟨_, by rw [main_reachesPost w bytes client hr, hp]⟩

/-- In `worldPosting result` the run reaches `post`, which settles with `result`. -/
theorem worldPosting_settles (result : Except JsVal Response) :
    PostSettles (worldPosting result) result :=
  ⟨jpegHead, clientOf result, ⟨"ghp_example", rfl, by decide, rfl, rfl, rfl⟩, rfl⟩

theorem getProp_arr_zero (x : Json) (xs : List Json) :
    getProp (.json (.arr (x :: xs))) .zero = .ok (.json x) := rfl

theorem getProp_error (v : JsVal) (k : PropName) (e : JsVal) (h : getProp v k = .error e) :
    e = cannotRead "undefined" k ∨ e = cannotRead "null" k := by
  cases v with
  | undefined => left; simpa [getProp] using h.symm
  | error name message => cases k <;> simp [getProp] at h
  | json j =>
    cases j with
    | null => right; simpa [getProp] using h.symm
    | obj fields => simp [getProp] at h
    | arr items => cases k <;> cases items <;> simp [getProp] at h
    | str s => cases k <;> cases hs : s.data <;> simp [getProp, hs] at h
    | bool b => simp [getProp] at h
    | num n safe => simp [getProp] at h

theorem lookupField_not_error (k : String) (fields : List (String × Json)) (name message : String) :
    lookupField k fields ≠ .error name message := by
  induction fields with
  | nil => simp [lookupField]
  | cons f rest ih =>
    obtain ⟨n, v⟩ := f
    simp only [lookupField]
    split
    · simp
    · exact ih

/-- A property read from a response body is never an `Error` instance. -/
theorem getProp_body_not_error (r : Response) (k : PropName) (name message : String)
    (h : getProp r.body k = .ok (.error name message)) : False := by
  unfold Response.body at h
  cases hp : r.payload with
  | none => simp [hp, getProp] at h
  | some j =>
    simp only [hp] at h
    cases j with
    | null => simp [getProp] at h
    | obj fields =>
      simp only [getProp, Except.ok.injEq] at h
      exact lookupField_not_error _ _ _ _ h
    | arr items => cases k <;> cases items <;> simp [getProp] at h
    | str s => cases k <;> cases hs : s.data <;> simp [getProp, hs] at h
    | bool b => simp [getProp] at h
    | num n safe => simp [getProp] at h

theorem run_of_exited (w : World) (t : Trace) (code : Nat) (h : main w = (t, .exited code)) :
    run w = { stderr := t.stderr, stdout := t.stdout, posts := t.posts, caught := none,
              exitCode := code } := by
  simp [run, h]

theorem run_of_returned (w : World) (t : Trace) (h : main w = (t, .returned)) :
    run w = { stderr := t.stderr, stdout := t.stdout, posts := t.posts, caught := none,
              exitCode := 0 } := by
  simp [run, h]

theorem run_of_threw (w : World) (t : Trace) (err : JsVal) (h : main w = (t, .threw err)) :
    run w = { stderr := t.stderr ++ finalCatch err, stdout := t.stdout, posts := t.posts,
              caught := some err, exitCode := 0 } := by
  simp [run, h]

theorem run_posts (w : World) : (run w).posts = (main w).1.posts := by
  unfold run
  split <;> rename_i h <;> simp [h]

/-- Either no request is sent, or the run reached the `post` call and sent
exactly the request built from the image bytes. -/
theorem posts_cases (w : World) :
    (main w).1.posts = [] ∨
    ∃ bytes client, ReachesPost w bytes client ∧
      (main w).1.posts = [(chatRoute, requestBody (toBase64 bytes))] := by
  cases htok : w.token with
  | none => left; simp [main, htok]
  | some token =>
    by_cases hne : token = ""
    · left; simp [main, htok, hne]
    · cases hex : w.existsSync (imagePath w) with
      | false =>
        left
        cases hf : w.filename <;> simp [main, htok, hne, withToken, hex, hf]
      | true =>
        cases hread : w.readFileSync (imagePath w) with
        | error e => left; simp [main, htok, hne, withToken, hex, hread]
        | ok bytes =>
          cases hclient : w.modelClient endpoint token with
          | error e => left; simp [main, htok, hne, withToken, hex, hread, hclient]
          | ok client =>
            right
            have hr : ReachesPost w bytes client := ⟨token, htok, hne, hex, hread, hclient⟩
            refine ⟨bytes, client, hr, ?_⟩
            rw [main_reachesPost w bytes client hr]
            cases hp : client.post chatRoute (requestBody (toBase64 bytes)) with
            | error e => rfl
            | ok r =>
              simp only [handleResponse]
              split
              · rfl
              · split <;> rfl

theorem dataUri_isBase64DataUri (bytes : List Byte) :
    IsBase64DataUri "image/jpeg" bytes (dataUri bytes) := by
  refine ⟨base64Chars bytes, ?_, base64Bytes_base64Chars bytes⟩
  have hprefix : dataUriPrefix.data = "data:".data ++ "image/jpeg".data ++ ";base64,".data := by
    decide
  simp [dataUri, toBase64, hprefix]

theorem requestBody_invariant (bytes : List Byte) :
    ChatRequestInvariant "image/jpeg" bytes (requestBody (toBase64 bytes)) := by
  refine ⟨⟨systemPrompt, userPrompt, dataUri bytes, rfl, dataUri_isBase64DataUri bytes⟩,
    ?_, ?_, ?_, ?_, ?_, ?_⟩
  · simp only [requestBody]; norm_num
  · simp only [requestBody]; norm_num
  · simp only [requestBody]; norm_num
  · simp only [requestBody]; norm_num
  · simp only [requestBody]; norm_num
  · simp only [requestBody, modelName]; decide

/-! ## Missing credential -/

/-- C1: when `GITHUB_TOKEN` is unset or empty, the run ends through
`process.exit(1)`: the exit code is 1, stderr holds the three credential
messages (the first names `GITHUB_TOKEN`), stdout stays empty and no `post`
call is made, whatever the filesystem, the client and the provider would do. -/
theorem missing_credential_exits (w : World) (h : MissingCredential w) :
    (run w).exitCode = 1 ∧
    (run w).stderr = tokenMessages ∧
    [Arg.text "CRITICAL ERROR: GITHUB_TOKEN environment variable is not set."] ∈ (run w).stderr ∧
    (run w).stdout = [] ∧
    (run w).posts.length = 0 := by
  have hrun := run_of_exited w _ 1 (main_missingCredential w h)
  simp [hrun, tokenMessages]

/-- The credential check at scenario B: the variable is unset. -/
theorem missing_credential_exits_witness :
    MissingCredential worldNoToken ∧ (run worldNoToken).exitCode = 1 ∧
      (run worldNoToken).posts.length = 0 :=
  ⟨Or.inl rfl, (missing_credential_exits worldNoToken (Or.inl rfl)).1,
    (missing_credential_exits worldNoToken (Or.inl rfl)).2.2.2.2⟩

/-! ## Missing image file -/

/-- With a credential and without the image, the run writes the not-found
message naming the joined path first and sends no request; it ends through
`process.exit(1)` exactly when `__filename` is bound. -/
theorem missing_file_general (w : World) (token : String) (htok : w.token = some token)
    (hne : token ≠ "") (hex : w.existsSync (imagePath w) = false) :
    (∃ rest, (run w).stderr = [Arg.text ("Error: Image file not found at " ++ imagePath w)] :: rest) ∧
    (run w).posts.length = 0 ∧
    ((run w).exitCode = 1 ↔ w.filename ≠ none) := by
  cases hf : w.filename with
  | none =>
    have hm : main w =
        (⟨[[.text (notFoundMessage (imagePath w))]], [], []⟩, .threw filenameUnbound) := by
      simp [main, htok, hne, withToken, hex, hf]
    simp [run_of_threw w _ _ hm, notFoundMessage]
  | some file =>
    have hm : main w =
        (⟨[[.text (notFoundMessage (imagePath w))], [.text (ensureMessage w file)]], [], []⟩,
          .exited 1) := by
      simp [main, htok, hne, withToken, hex, hf]
    simp [run_of_exited w _ _ hm, notFoundMessage]

/-- C2, at the failing input: credential set, image absent, the script run as
an ES module.  The not-found message naming `/work/contoso_layout_sketch.jpg`
is written and no request is sent, but reading `__filename` on line 32 throws
before `process.exit(1)` is reached: the top-level handler logs the
`ReferenceError` and the process ends with exit code 0, not 1. -/
theorem missing_file_module_run :
    worldNoFileModule.token = some "ghp_example" ∧
    worldNoFileModule.existsSync (imagePath worldNoFileModule) = false ∧
    (run worldNoFileModule).stderr =
      [Arg.text "Error: Image file not found at /work/contoso_layout_sketch.jpg"] ::
        finalCatch (.error "ReferenceError" "__filename is not defined") ∧
    (run worldNoFileModule).posts.length = 0 ∧
    (run worldNoFileModule).caught = some (.error "ReferenceError" "__filename is not defined") ∧
    (run worldNoFileModule).exitCode = 0 ∧
    (run worldNoFileModule).exitCode ≠ 1 :=
  ⟨rfl, rfl, rfl, rfl, rfl, rfl, by decide⟩

/-- The same scenario under a CommonJS wrapper ends with exit code 1. -/
theorem missing_file_commonjs_run :
    (run worldNoFileCommonJs).stderr =
      [ [Arg.text "Error: Image file not found at /work/contoso_layout_sketch.jpg"],
        [Arg.text "Please ensure 'contoso_layout_sketch.jpg' is in the same directory as 'sample.js'."] ] ∧
    (run worldNoFileCommonJs).exitCode = 1 :=
  ⟨rfl, rfl⟩

/-! ## Successful answer -/

/-- C3, as the claim states it, fails: HTTP 201 is a successful (2xx) status
and the body of `createdResponse` has one candidate with content
`<html>...</html>`, but the library's `isUnexpected` accepts 200 alone, so the
run takes the error branch of line 95 and writes nothing to stdout. -/
theorem created_status_prints_nothing :
    PostSettles (worldPosting (.ok createdResponse)) (.ok createdResponse) ∧
    IsSuccessStatus createdResponse.status ∧
    firstContent createdResponse.body = .ok (.json (.str "<html>...</html>")) ∧
    (run (worldPosting (.ok createdResponse))).stdout = [] ∧
    (run (worldPosting (.ok createdResponse))).stdout ≠ [[Arg.text "<html>...</html>"]] ∧
    (run (worldPosting (.ok createdResponse))).caught = some (providerError createdResponse) :=
  ⟨worldPosting_settles _, ⟨by decide, by decide⟩, rfl, rfl, by simp [show
    (run (worldPosting (.ok createdResponse))).stdout = [] from rfl], rfl⟩

/-- C3, amended: when the run reaches `post`, the answer has status 200 (the
one status the library's `isUnexpected` accepts) and its `choices` list has a
first candidate whose `message.content` is `content`, then stdout receives
exactly one `console.log` call with `content` as its only argument, stderr
stays empty and the exit code is 0. -/
theorem success_prints_first_candidate (w : World) (r : Response) (first : Json)
    (rest : List Json) (message content : JsVal)
    (h : PostSettles w (.ok r)) (hok : r.status = 200)
    (hchoices : getProp r.body .choices = .ok (.json (.arr (first :: rest))))
    (hmessage : getProp (.json first) .message = .ok message)
    (hcontent : getProp message .content = .ok content) :
    (run w).stdout = [[.val content]] ∧ (run w).stderr = [] ∧ (run w).exitCode = 0 := by
  obtain ⟨body, hm⟩ := main_postResolves w r h
  have hexp : r.unexpected = false := by simp [Response.unexpected, hok]
  have hfirst : firstContent r.body = .ok content := by
    simp only [firstContent, hchoices, getProp_arr_zero, hmessage, hcontent]
  have hm2 : main w = (⟨[], [[.val content]], [(chatRoute, body)]⟩, .returned) := by
    rw [hm]; simp [handleResponse, hexp, hfirst]
  simp [run_of_returned w _ hm2]

/-- Scenario A: the one candidate of the answer is what is printed. -/
theorem success_prints_first_candidate_witness :
    (run (worldPosting (.ok successResponse))).stdout = [[Arg.text "<html>...</html>"]] ∧
    (run (worldPosting (.ok successResponse))).stderr = [] ∧
    (run (worldPosting (.ok successResponse))).exitCode = 0 :=
  success_prints_first_candidate (worldPosting (.ok successResponse)) successResponse
    (.obj [("message", .obj [("content", .str "<html>...</html>")])]) []
    (.json (.obj [("content", .str "<html>...</html>")])) (.json (.str "<html>...</html>"))
    (worldPosting_settles _) rfl rfl rfl rfl

/-! ## Provider errors -/

theorem main_unexpected (w : World) (r : Response) (h : PostSettles w (.ok r))
    (hu : r.unexpected = true) :
    ∃ body, main w =
      (⟨[[.text providerMessage], [.text "Full response body:", .val r.body]], [],
          [(chatRoute, body)]⟩, .threw (providerError r)) := by
  obtain ⟨body, hm⟩ := main_postResolves w r h
  exact ⟨body, by rw [hm]; simp [handleResponse, hu]⟩

/-- C4, as the claim states it, fails: in scenario D (HTTP 429 with an error
body) the run reaches `post`, the response is `isUnexpected`, and the process
ends with exit code 0. -/
theorem provider_error_exit_code_zero :
    PostSettles (worldPosting (.ok rateLimitedResponse)) (.ok rateLimitedResponse) ∧
    rateLimitedResponse.unexpected = true ∧
    (run (worldPosting (.ok rateLimitedResponse))).exitCode = 0 ∧
    (run (worldPosting (.ok rateLimitedResponse))).exitCode ≠ 1 :=
  ⟨worldPosting_settles _, rfl, rfl, by decide⟩

/-- C4, amended: when the response is `isUnexpected`, stderr receives the
provider-error message, the response body, and the report of the top-level
handler on the thrown value; nothing is written to stdout; the thrown value
reaches the top-level handler, which only logs, so `process.exit` is never
called and the process ends with exit code 0. -/
theorem provider_error_reported (w : World) (r : Response) (h : PostSettles w (.ok r))
    (hu : r.unexpected = true) :
    (run w).stderr =
      [[.text providerMessage], [.text "Full response body:", .val r.body]] ++
        finalCatch (providerError r) ∧
    (run w).stdout = [] ∧
    (run w).caught = some (providerError r) ∧
    (run w).exitCode = 0 := by
  obtain ⟨body, hm⟩ := main_unexpected w r h hu
  simp [run_of_threw w _ _ hm]

/-- Scenario D: the report of an HTTP 429 answer. -/
theorem provider_error_reported_witness :
    (run (worldPosting (.ok rateLimitedResponse))).stderr =
      [[.text providerMessage], [.text "Full response body:", .val rateLimitedResponse.body]] ++
        finalCatch (providerError rateLimitedResponse) ∧
    (run (worldPosting (.ok rateLimitedResponse))).stdout = [] ∧
    (run (worldPosting (.ok rateLimitedResponse))).caught =
      some (providerError rateLimitedResponse) ∧
    (run (worldPosting (.ok rateLimitedResponse))).exitCode = 0 :=
  provider_error_reported (worldPosting (.ok rateLimitedResponse)) rateLimitedResponse
    (worldPosting_settles _) rfl

/-- When `.error` can be read from the body of an `isUnexpected` response, a
truthy value of it is what is thrown, and otherwise an `Error` whose message
ends with the JSON text of the body. -/
theorem provider_error_when_readable (w : World) (r : Response) (err : JsVal)
    (h : PostSettles w (.ok r)) (hu : r.unexpected = true)
    (herr : getProp r.body .error = .ok err) :
    (∃ line ∈ (run w).stderr, Arg.val r.body ∈ line) ∧
    (truthy err = true → (run w).caught = some err) ∧
    (truthy err = false → (run w).caught =
      some (.error "Error"
        ("API error without specific error message: " ++ jsonTemplate r.payload))) := by
  obtain ⟨body, hm⟩ := main_unexpected w r h hu
  refine ⟨?_, ?_, ?_⟩
  · simp [run_of_threw w _ _ hm]
  · intro ht; simp [run_of_threw w _ _ hm, providerError, herr, ht]
  · intro ht; simp [run_of_threw w _ _ hm, providerError, herr, ht]

/-- Scenario D: the body `\x7b"error":\x7b"message":"rate limited"\x7d\x7d` is
written to stderr and its `error` object, which holds the text
`rate limited`, is the value the top-level handler reports. -/
theorem rate_limited_run :
    (run (worldPosting (.ok rateLimitedResponse))).stderr =
      [ [.text "API returned an unexpected response (not a successful 2xx status)."],
        [.text "Full response body:",
          .val (.json (.obj [("error", .obj [("message", .str "rate limited")])]))],
        [.text "\n--- Final Catch Block Error ---"],
        [.text "The sample encountered an error:",
          .val (.json (.obj [("message", .str "rate limited")]))],
        [.text "Error details (JSON):", .jsonOwn2 (.json (.obj [("message", .str "rate limited")]))],
        [.text "--- End Final Catch Block Error ---"] ] :=
  rfl

/-- The fallback of line 98 on a body without error details: for the body
`\x7b\x7d` the `Error` raised carries the JSON text of the body. -/
theorem fallback_error_run :
    (run (worldPosting (.ok ⟨500, some (.obj [])⟩))).caught =
      some (.error "Error" "API error without specific error message: \x7b\x7d") :=
  rfl

/-- C9, at the failing input: a non-2xx answer with an empty body
(`response.body` is `undefined`, which has no `error` field).  The body is
written to stderr, but reading `response.body.error` on line 98 throws a
`TypeError`, which is what reaches the top-level handler: no `Error` carrying
the JSON serialisation of the body is raised. -/
theorem empty_error_body_run :
    PostSettles (worldPosting (.ok emptyErrorResponse)) (.ok emptyErrorResponse) ∧
    emptyErrorResponse.unexpected = true ∧
    (∃ line ∈ (run (worldPosting (.ok emptyErrorResponse))).stderr,
      Arg.val emptyErrorResponse.body ∈ line) ∧
    (run (worldPosting (.ok emptyErrorResponse))).caught =
      some (.error "TypeError" "Cannot read properties of undefined (reading 'error')") ∧
    (run (worldPosting (.ok emptyErrorResponse))).caught ≠
      some (.error "Error" ("API error without specific error message: " ++
        jsonTemplate emptyErrorResponse.payload)) ∧
    (run (worldPosting (.ok emptyErrorResponse))).exitCode = 0 := by
  refine ⟨worldPosting_settles _, rfl, ⟨_, List.mem_cons_of_mem _ (List.mem_cons_self _ _),
    List.mem_cons_of_mem _ (List.mem_cons_self _ _)⟩, rfl, ?_, rfl⟩
  have hc : (run (worldPosting (.ok emptyErrorResponse))).caught =
      some (.error "TypeError" "Cannot read properties of undefined (reading 'error')") := rfl
  rw [hc]
  simp only [ne_eq, Option.some.injEq, JsVal.error.injEq, not_and]
  intro hname
  exact absurd hname (by decide)

/-! ## Transport failures -/

/-- The value thrown on line 98 is never a `RestError`: it is a `TypeError`,
a piece of the parsed body, or the fallback `Error`. -/
theorem providerError_not_transport (r : Response) : ¬ IsTransportError (providerError r) := by
  rintro ⟨message, hm⟩
  unfold providerError at hm
  split at hm
  · rename_i e he
    rcases getProp_error _ _ _ he with h2 | h2 <;>
      · rw [h2] at hm
        simp only [cannotRead, JsVal.error.injEq] at hm
        exact absurd hm.1 (by decide)
  · rename_i err herr
    split at hm
    · rw [hm] at herr
      exact getProp_body_not_error r _ _ _ herr
    · simp only [JsVal.error.injEq] at hm
      exact absurd hm.1 (by decide)

/-- C8: when `post` fails at transport level, rejecting with the `RestError`
`e`, the failure is reported as a transport failure: stderr is the report of
the post stage (its message with `e`, then the details of `e`) followed by the
report of the top-level handler; the provider-error message is never written;
nothing is written to stdout; `e` itself reaches the top-level handler; and
for every run with an `isUnexpected` provider response, both the value its
handler receives and its stderr differ from those of this run. -/
theorem transport_failure_reported (w : World) (e : JsVal) (h : PostSettles w (.error e))
    (ht : IsTransportError e) :
    (run w).stderr =
      [[.text postStageMessage, .val e], [.text "Post call error details:", .json2 e]] ++
        finalCatch e ∧
    [Arg.text providerMessage] ∉ (run w).stderr ∧
    (run w).stdout = [] ∧
    (run w).caught = some e ∧
    ∀ (w2 : World) (r : Response), PostSettles w2 (.ok r) → r.unexpected = true →
      (run w2).caught ≠ (run w).caught ∧ (run w2).stderr ≠ (run w).stderr := by
  obtain ⟨body, hm⟩ := main_postRejects w e h
  have hrun := run_of_threw w _ _ hm
  have hobj : isObject e = true := by
    obtain ⟨message, rfl⟩ := ht
    rfl
  refine ⟨by simp [hrun, postCatch, hobj], ?_, by simp [hrun], by simp [hrun], ?_⟩
  · simp [hrun, postCatch, finalCatch, hobj, Arg.text, providerMessage, postStageMessage]
  · intro w2 r h2 hu
    obtain ⟨body2, hm2⟩ := main_unexpected w2 r h2 hu
    refine ⟨?_, by simp [run_of_threw w2 _ _ hm2, hrun, postCatch]⟩
    simp only [run_of_threw w2 _ _ hm2, hrun, ne_eq, Option.some.injEq]
    intro heq
    exact providerError_not_transport r (heq ▸ ht)

/-- A refused connection, against the HTTP 429 answer of scenario D. -/
theorem transport_failure_reported_witness :
    IsTransportError connectionRefused ∧
    (run (worldPosting (.error connectionRefused))).stderr =
      [[.text postStageMessage, .val connectionRefused],
        [.text "Post call error details:", .json2 connectionRefused]] ++
        finalCatch connectionRefused ∧
    [Arg.text providerMessage] ∉ (run (worldPosting (.error connectionRefused))).stderr ∧
    (run (worldPosting (.error connectionRefused))).stdout = [] ∧
    (run (worldPosting (.error connectionRefused))).caught = some connectionRefused ∧
    (run (worldPosting (.ok rateLimitedResponse))).caught ≠
      (run (worldPosting (.error connectionRefused))).caught :=
  have h := transport_failure_reported (worldPosting (.error connectionRefused)) connectionRefused
    (worldPosting_settles _) ⟨_, rfl⟩
  ⟨⟨_, rfl⟩, h.1, h.2.1, h.2.2.1, h.2.2.2.1,
    (h.2.2.2.2 (worldPosting (.ok rateLimitedResponse)) rateLimitedResponse
      (worldPosting_settles _) rfl).1⟩

/-- The stderr of a transport failure, written out. -/
theorem connection_refused_run :
    (run (worldPosting (.error connectionRefused))).stderr =
      [ [.text "Error during client.path(...).post() call (network or request issue):",
          .val connectionRefused],
        [.text "Post call error details:", .json2 connectionRefused],
        [.text "\n--- Final Catch Block Error ---"],
        [.text "The sample encountered an error:", .val connectionRefused],
        [.text "Error details (JSON):", .jsonOwn2 connectionRefused],
        [.text "--- End Final Catch Block Error ---"] ] :=
  rfl

/-! ## Success status with an unexpected body -/

theorem firstContent_error (body e : JsVal) (h : firstContent body = .error e) :
    ∃ base k, e = cannotRead base k := by
  unfold firstContent at h
  split at h
  · rename_i e1 h1
    cases h
    rcases getProp_error _ _ _ h1 with h2 | h2 <;> exact ⟨_, _, h2⟩
  · split at h
    · rename_i e1 h1
      cases h
      rcases getProp_error _ _ _ h1 with h2 | h2 <;> exact ⟨_, _, h2⟩
    · split at h
      · rename_i e1 h1
        cases h
        rcases getProp_error _ _ _ h1 with h2 | h2 <;> exact ⟨_, _, h2⟩
      · rcases getProp_error _ _ _ h with h2 | h2 <;> exact ⟨_, _, h2⟩

/-- An empty `choices` list makes the read of line 102 throw. -/
theorem firstContent_empty_choices (body : JsVal)
    (h : getProp body .choices = .ok (.json (.arr []))) :
    firstContent body = .error (cannotRead "undefined" .message) := by
  simp only [firstContent, h]
  rfl

/-- A first candidate without a `message` makes the read of line 102 throw. -/
theorem firstContent_no_message (body : JsVal) (first : Json) (rest : List Json)
    (h : getProp body .choices = .ok (.json (.arr (first :: rest))))
    (hm : getProp (.json first) .message = .ok .undefined) :
    firstContent body = .error (cannotRead "undefined" .content) := by
  simp only [firstContent, h, getProp_arr_zero, hm]
  rfl

/-- C10, as the claim states it, fails: for a 2xx answer whose `choices` list
is empty, stderr holds only the top-level handler's report of a `TypeError`;
the response body is not surfaced on stderr. -/
theorem malformed_success_hides_body :
    PostSettles (worldPosting (.ok noChoicesResponse)) (.ok noChoicesResponse) ∧
    noChoicesResponse.unexpected = false ∧
    (run (worldPosting (.ok noChoicesResponse))).stderr =
      [ [.text "\n--- Final Catch Block Error ---"],
        [.text "The sample encountered an error:",
          .val (.error "TypeError" "Cannot read properties of undefined (reading 'message')")],
        [.text "Error details (JSON):",
          .jsonOwn2 (.error "TypeError" "Cannot read properties of undefined (reading 'message')")],
        [.text "--- End Final Catch Block Error ---"] ] ∧
    ¬ Surfaces noChoicesResponse.body (run (worldPosting (.ok noChoicesResponse))).stderr := by
  refine ⟨worldPosting_settles _, rfl, rfl, ?_⟩
  have hs : (run (worldPosting (.ok noChoicesResponse))).stderr =
      finalCatch (.error "TypeError" "Cannot read properties of undefined (reading 'message')") :=
    rfl
  have hb : noChoicesResponse.body = .json (.obj [("choices", .arr [])]) := rfl
  rw [hs, hb]
  simp [Surfaces, finalCatch, isObject, Arg.text]

/-- C10, amended: when the answer is a success but the read of
`response.body.choices[0].message.content` fails (an empty `choices` list, a
first candidate without `message`, ...), the `TypeError` of that read is
thrown to the top-level handler: stderr is exactly the handler's report of the
`TypeError`, with no line for the response body, nothing is written to stdout,
and the process ends with exit code 0. -/
theorem malformed_success_reported (w : World) (r : Response) (e : JsVal)
    (h : PostSettles w (.ok r)) (hok : r.unexpected = false)
    (hbad : firstContent r.body = .error e) :
    (run w).stderr = finalCatch e ∧
    (∃ base k, e = cannotRead base k) ∧
    (run w).stdout = [] ∧
    (run w).caught = some e ∧
    (run w).exitCode = 0 := by
  obtain ⟨body, hm⟩ := main_postResolves w r h
  have hm2 : main w = (⟨[], [], [(chatRoute, body)]⟩, .threw e) := by
    rw [hm]; simp [handleResponse, hok, hbad]
  simp [run_of_threw w _ _ hm2, firstContent_error _ _ hbad]

/-- A 2xx answer with an empty `choices` list. -/
theorem malformed_success_reported_witness :
    (run (worldPosting (.ok noChoicesResponse))).stderr =
      finalCatch (cannotRead "undefined" .message) ∧
    (∃ base k, cannotRead "undefined" .message = cannotRead base k) ∧
    (run (worldPosting (.ok noChoicesResponse))).stdout = [] ∧
    (run (worldPosting (.ok noChoicesResponse))).caught = some (cannotRead "undefined" .message) ∧
    (run (worldPosting (.ok noChoicesResponse))).exitCode = 0 :=
  malformed_success_reported (worldPosting (.ok noChoicesResponse)) noChoicesResponse
    (cannotRead "undefined" .message) (worldPosting_settles _) rfl
    (firstContent_empty_choices _ rfl)

/-! ## The request and the number of network calls -/

/-- C6: in every run that reaches the `post` call with image bytes `bytes`,
exactly one request body is passed to `post`, on the chat-completions route,
and it satisfies the chat-request invariant: two messages, a `system` message
with plain text, then a `user` message with a text segment followed by an
`image_url` segment whose url is a base64 data URI of `bytes` (the literal
`data:image/jpeg;base64,` followed by a base64 text that decodes to `bytes`);
`0 ≤ temperature ≤ 1`, `0 ≤ top_p ≤ 1`, `max_tokens` positive, `model`
non-empty. -/
theorem request_satisfies_invariant (w : World) (bytes : List Byte) (client : Client)
    (h : ReachesPost w bytes client) :
    (run w).posts = [(chatRoute, requestBody (toBase64 bytes))] ∧
    ChatRequestInvariant "image/jpeg" bytes (requestBody (toBase64 bytes)) := by
  refine ⟨?_, requestBody_invariant bytes⟩
  rw [run_posts, main_reachesPost w bytes client h]
  cases client.post chatRoute (requestBody (toBase64 bytes)) with
  | error e => rfl
  | ok r =>
    simp only [handleResponse]
    split
    · rfl
    · split <;> rfl

/-- The request sent for an image of three bytes. -/
theorem request_satisfies_invariant_witness :
    (run (worldPosting (.ok successResponse))).posts =
      [(chatRoute, requestBody (toBase64 jpegHead))] ∧
    ChatRequestInvariant "image/jpeg" jpegHead (requestBody (toBase64 jpegHead)) :=
  request_satisfies_invariant (worldPosting (.ok successResponse)) jpegHead
    (clientOf (.ok successResponse)) ⟨"ghp_example", rfl, by decide, rfl, rfl, rfl⟩

/-- C7: every run makes at most one `post` call; it makes exactly one when
the credential is non-empty, the image exists and is read, and the client is
constructed (whatever `post` then does); it makes none when the credential is
missing, when the image does not exist, and when client construction throws. -/
theorem at_most_one_network_call (w : World) :
    (run w).posts.length ≤ 1 ∧
    ((∃ bytes client, ReachesPost w bytes client) → (run w).posts.length = 1) ∧
    (MissingCredential w → (run w).posts.length = 0) ∧
    (w.existsSync (imagePath w) = false → (run w).posts.length = 0) ∧
    ((∀ token, w.token = some token → ∃ e, w.modelClient endpoint token = .error e) →
      (run w).posts.length = 0) := by
  rw [run_posts]
  refine ⟨?_, ?_, ?_, ?_, ?_⟩
  · rcases posts_cases w with h | ⟨_, _, _, h⟩ <;> simp [h]
  · rintro ⟨bytes, client, hr⟩
    rcases posts_cases w with h | ⟨_, _, _, h⟩
    · rw [main_reachesPost w bytes client hr] at h
      revert h
      cases client.post chatRoute (requestBody (toBase64 bytes)) with
      | error e => simp
      | ok r =>
        simp only [handleResponse]
        split
        · simp
        · split <;> simp
    · simp [h]
  · intro hmiss
    simp [main_missingCredential w hmiss]
  · intro hex
    rcases posts_cases w with h | ⟨_, _, ⟨_, _, _, hex2, _⟩, _⟩
    · simp [h]
    · rw [hex] at hex2; cases hex2
  · intro hthrows
    rcases posts_cases w with h | ⟨_, _, ⟨token, htok, _, _, _, hclient⟩, _⟩
    · simp [h]
    · obtain ⟨e, he⟩ := hthrows token htok
      rw [he] at hclient; cases hclient

/-- One call when `post` is reached (even if it rejects), none in scenarios B and C
and when client construction throws. -/
theorem at_most_one_network_call_witness :
    (run (worldPosting (.error connectionRefused))).posts.length = 1 ∧
    (run worldNoToken).posts.length = 0 ∧
    (run worldNoFileModule).posts.length = 0 ∧
    (run worldClientThrows).posts.length = 0 :=
  ⟨(at_most_one_network_call _).2.1
      ⟨jpegHead, clientOf (.error connectionRefused), "ghp_example", rfl, by decide, rfl, rfl, rfl⟩,
    (at_most_one_network_call _).2.2.1 (Or.inl rfl),
    (at_most_one_network_call _).2.2.2.1 rfl,
    (at_most_one_network_call _).2.2.2.2 (fun _ _ => ⟨_, rfl⟩)⟩

end Sample
